import Mathlib

/-!
Verification of the yee HTTP framework core: the per-request `context` with its
`Next`-driven middleware chain executor (src/unnamed/part_000), the access-logger
middleware in its two variants (src/unnamed/part_001, src/unnamed/part_002), and
the CSRF middleware (src/middleware/csrf.go).

Go machine integers are modelled as `Int` (no operation here can overflow the
64-bit range on the inputs the framework handles, and none of the verified
properties depends on wrap-around). Fallible Go functions returning `error` are
modelled with `Option`/`Except`. Maps (`http.Header`, `url.Values`, the context
store) are modelled as association lists with Go's `Get` semantics (first match,
empty string / absence when missing).
-/

namespace Yee

/-- Lookup (`Get`) on an association list of string pairs: value of the first entry with
the given key, `""` when absent.  Models `http.Header.Get` / `url.Values.Get`
(header-name canonicalisation is not modelled; all lookups in this development
use the exact constant names the source uses). -/
def assocGet (l : List (String × String)) (key : String) : String :=
  match l.find? (fun p => p.1 == key) with
  | some p => p.2
  | none => ""

/-- Update (`Set`) on an association list: drop previous entries for the key and prepend
the new binding.  Models `http.Header.Set`. -/
def assocSet (l : List (String × String)) (key value : String) :
    List (String × String) :=
  (key, value) :: l.filter (fun p => p.1 != key)

/-- First `WriteHeader` wins: Go's `http.ResponseWriter.WriteHeader` ignores a
second call (spec §3: exactly one status code committed, first writer wins). -/
def commitStatus : Option Int → Int → Option Int
  | none, code => some code
  | some c, _ => some c

/-! ## The middleware chain executor (src/unnamed/part_000, lines 73-84)

```go
func (c *context) Next()  {
	c.index++
	s := len(c.handlers)
	for ; c.index < s; c.index++ {
		if c.intercept {
			break
		}
		if err := c.handlers[c.index].Func(c);err != nil {
				c.intercept = true
		}
	}
}
```

A handler (`HandlerFunc.Func`) receives the `Context` interface, which exposes
`Next()` but neither `index` nor `intercept` (both unexported fields of
`context`).  Hence the only effect a handler can have on the cursor state is the
sequence of `Next()` calls it performs before returning its error value.  A
handler's realized interaction in one run is therefore captured by the number of
`Next()` calls it makes and whether it returns a non-nil error; `IsMiddleware`
is the tag `HandlerFunc` carries, unused by `Next`. -/

/-- The realized behaviour of one `HandlerFunc` in a chain run: its `Func` calls
`c.Next()` `nexts` times and then returns (`fails = true` iff the returned
error is non-nil). -/
structure HandlerBehavior where
  nexts : Nat
  fails : Bool
  IsMiddleware : Bool
  deriving DecidableEq, Repr

/-- A frame of the (re)entrant execution of `Next`:
`loop` is an active `for`-loop of one `Next` invocation (part_000 line 76),
positioned at its condition check; `body k f` is a handler body still owing
`k` calls to `c.Next()` before returning error-ness `f` (part_000 line 80). -/
inductive Frame where
  | loop : Frame
  | body (k : Nat) (fails : Bool) : Frame
  deriving DecidableEq, Repr

/-- The executor state: the stack of active `Next` loops and handler bodies,
the cursor `index` (Go `int`, starts at `-1`), the `intercept` flag, and a
ghost trace `invoked` of the handler indices invoked so far, in order. -/
structure ChainState where
  stack : List Frame
  index : Int
  intercept : Bool
  invoked : List Int
  deriving DecidableEq, Repr

/-- A freshly constructed `context` (part_000 line 69: `index: -1`), chain not
yet started. -/
def newChain : ChainState :=
  { stack := [], index := -1, intercept := false, invoked := [] }

/-- Entering `c.Next()`: `c.index++` (line 74) and start the `for` loop
(line 76). -/
def callNext (c : ChainState) : ChainState :=
  { c with index := c.index + 1, stack := Frame.loop :: c.stack }

/-- One step of the executor.  `loop` at its condition: exit when
`c.index < s` fails (line 76) or `c.intercept` holds (lines 77-79); otherwise
invoke `c.handlers[c.index].Func(c)` (line 80), pushing the handler body.  A
body with pending `Next` calls performs one (lines 73-76).  A finished body
returns to its invoking loop, which applies `if err != nil { c.intercept =
true }` (lines 80-82) and the `for` post-statement `c.index++` (line 76).
An empty stack (chain finished) is a fixpoint. -/
def step (hs : List HandlerBehavior) (c : ChainState) : ChainState :=
  match c.stack with
  | [] => c
  | Frame.loop :: rest =>
    if c.index < (hs.length : Int) then
      if c.intercept then { c with stack := rest }
      else
        match hs.get? c.index.toNat with
        | some hd =>
          { c with stack := Frame.body hd.nexts hd.fails :: c.stack,
                   invoked := c.invoked ++ [c.index] }
        | none => { c with stack := rest }
    else { c with stack := rest }
  | Frame.body (k + 1) f :: rest =>
    callNext { c with stack := Frame.body k f :: rest }
  | Frame.body 0 f :: rest =>
    { c with stack := rest, intercept := c.intercept || f,
             index := c.index + 1 }

/-- The executor after `n` steps, starting from the router's single call to
`Next()` on a fresh context. -/
def run (hs : List HandlerBehavior) : Nat → ChainState
  | 0 => callNext newChain
  | n + 1 => step hs (run hs n)

/-- The list `[0, 1, ..., n-1]` as `Int` indices. -/
def natRange (n : Nat) : List Int :=
  (List.range n).map Int.ofNat

/-- Stack well-formedness: every handler body sits directly above the loop
frame that invoked it. -/
def framesWF : List Frame → Prop
  | [] => True
  | Frame.loop :: rest => framesWF rest
  | Frame.body _ _ :: rest => rest.head? = some Frame.loop ∧ framesWF rest

/-- The executor invariant: the ghost trace is exactly `[0 .. len)`, it never
exceeds the handler count, and the cursor/stack are in one of the shapes
reachable by `Next`. -/
def chainInv (hs : List HandlerBehavior) (c : ChainState) : Prop :=
  framesWF c.stack ∧
  c.invoked = natRange c.invoked.length ∧
  c.invoked.length ≤ hs.length ∧
  (c.stack = [] ∨
   (hs.length : Int) ≤ c.index ∨
   c.intercept = true ∨
   (∃ rest, c.stack = Frame.loop :: rest ∧ c.index = (c.invoked.length : Int)) ∨
   (∃ k f rest, c.stack = Frame.body k f :: rest ∧
      c.index + 1 = (c.invoked.length : Int)))

/-! ## The request context (src/unnamed/part_000)

Header-name constants.  The repository's header-constant table is glue outside
the provided sources; the values below are the ones named by the spec (§4.1,
§4.2, §8). -/

/-- Modelled from the spec: yee's `HeaderXForwardedProto` constant (the
constant table is not in src). -/
def HeaderXForwardedProto : String := "X-Forwarded-Proto"

/-- Modelled from the spec: yee's `HeaderXForwardedProtocol` constant. -/
def HeaderXForwardedProtocol : String := "X-Forwarded-Protocol"

/-- Modelled from the spec: yee's `HeaderXForwardedSsl` constant. -/
def HeaderXForwardedSsl : String := "X-Forwarded-Ssl"

/-- Modelled from the spec: yee's `HeaderXUrlScheme` constant. -/
def HeaderXUrlScheme : String := "X-Url-Scheme"

/-- Modelled from the spec: yee's `HeaderXCSRFToken` constant (spec §4.2:
default lookup `"header:X-CSRF-Token"`). -/
def HeaderXCSRFToken : String := "X-CSRF-Token"

/-- Modelled from the spec: yee's `HeaderVary` constant (spec §4.2: the
middleware "sets a `Vary: Cookie` response header"). -/
def HeaderVary : String := "Vary"

/-- Modelled from the spec: yee's `HeaderCookie` constant. -/
def HeaderCookie : String := "Cookie"

/-- An `http.Cookie` as configured by the CSRF middleware (csrf.go lines
105-117).  `MaxAge` stands for the absolute `Expires` stamp the Go code
computes as `time.Now().Add(CookieMaxAge seconds)`; wall-clock time is external
to this model, so the cookie records the configured offset. -/
structure Cookie where
  Name : String
  Value : String
  Path : String
  Domain : String
  MaxAge : Int
  Secure : Bool
  HttpOnly : Bool
  deriving DecidableEq, Repr

/-- The parts of yee's `context` (src/unnamed/part_000 lines 44-61) that the
verified operations read or write, together with the request data they project.
`ReqHeaders` models `c.r.Header`, `RespHeaders` models `c.w.Header()`,
`Status`/`Body` model the response writer (`WriteHeader` is write-once, spec
§3), `Store` models the locked `c.store` map (the lock serialises access; the
sequential semantics is the map itself), `ReqCookies` the request's cookie jar,
`RespCookies` the `Set-Cookie` entries added so far, and `NextCalled` records
whether the handler under study invoked `c.Next()` to continue the chain. -/
structure YeeCtx where
  Method : String
  ReqHeaders : List (String × String)
  ReqCookies : List (String × String)
  Query : List (String × String)
  Form : List (String × String)
  RespHeaders : List (String × String)
  RespCookies : List Cookie
  Store : List (String × String)
  Status : Option Int
  Body : String
  NextCalled : Bool
  deriving DecidableEq, Repr

/-- A freshly constructed context over an empty request: nothing looked up,
nothing written yet.  Concrete witnesses adjust the fields they need. -/
def emptyCtx : YeeCtx :=
  { Method := "GET"
    ReqHeaders := []
    ReqCookies := []
    Query := []
    Form := []
    RespHeaders := []
    RespCookies := []
    Store := []
    Status := none
    Body := ""
    NextCalled := false }

/-- The yee error value `ErrInvalidRedirectCode` (referenced by part_000 line
243; declared in the framework's error table outside src). -/
inductive YeeError where
  | ErrInvalidRedirectCode
  deriving DecidableEq, Repr

/-- Source `GetHeader` (part_000 lines 164-166): note the source reads
`c.w.Header().Get(key)` — the RESPONSE headers. -/
def YeeCtx.GetHeader (c : YeeCtx) (key : String) : String :=
  assocGet c.RespHeaders key

/-- Source `SetHeader` (part_000 lines 156-158): `c.w.Header().Set(key, value)`. -/
def YeeCtx.SetHeader (c : YeeCtx) (key value : String) : YeeCtx :=
  { c with RespHeaders := assocSet c.RespHeaders key value }

/-- Source `QueryParam` (part_000 lines 177-183): `url.Values.Get` on the request's
query (first value for the name, `""` when absent). -/
def YeeCtx.QueryParam (c : YeeCtx) (name : String) : String :=
  assocGet c.Query name

/-- Source `FormValue` (part_000 lines 189-191): `c.r.FormValue(name)`. -/
def YeeCtx.FormValue (c : YeeCtx) (name : String) : String :=
  assocGet c.Form name

/-- Source `Put` (part_000 lines 91-98): `c.store[key] = values` under the write
lock; later bindings shadow earlier ones. -/
def YeeCtx.Put (c : YeeCtx) (key value : String) : YeeCtx :=
  { c with Store := (key, value) :: c.Store }

/-- Source `Get` (part_000 lines 100-104): `c.store[key]` under the read lock;
`none` models Go's `nil` for a missing key. -/
def YeeCtx.Get (c : YeeCtx) (key : String) : Option String :=
  (c.Store.find? (fun p => p.1 == key)).map (fun p => p.2)

/-- Modelled from the spec: `context.Cookie(name)` (the request-cookie
accessor of the current yee context is not in src; spec §4.2 — "the existing
cookie", §6 cookie wire format).  Returns the named request cookie's value, or
`none` where Go returns `http.ErrNoCookie`. -/
def YeeCtx.Cookie (c : YeeCtx) (name : String) : Option String :=
  (c.ReqCookies.find? (fun p => p.1 == name)).map (fun p => p.2)

/-- Modelled from the spec: `context.SetCookie` (not in src; spec §6: standard
`Set-Cookie` emission) — appends one `Set-Cookie` entry to the response. -/
def YeeCtx.SetCookie (c : YeeCtx) (ck : Yee.Cookie) : YeeCtx :=
  { c with RespCookies := c.RespCookies ++ [ck] }

/-- Modelled from the spec: `context.ServerError(code, msg)` — the spec's
`reportError` (§4.1): "writes `err`'s message as the body with the given
status and returns `err` unchanged".  Matches part_000's `MiddError` (lines
86-89), which renders via `String` → `Blob`: set a default Content-Type if
none, commit the status (first write wins), append the body, return the
error. -/
def YeeCtx.ServerError (c : YeeCtx) (code : Int) (msg : String) :
    YeeCtx × Option String :=
  let c1 := if c.GetHeader "Content-Type" = "" then
      c.SetHeader "Content-Type" "text/plain; charset=UTF-8" else c
  ({ c1 with Status := commitStatus c1.Status code, Body := c1.Body ++ msg },
   some msg)

/-- Source `Redirect` (part_000 lines 241-248):

```go
func (c *context) Redirect(code int, uri string) error {
	if code < 300 || code > 308 {
		return ErrInvalidRedirectCode
	}
	c.r.Header.Set("Location", uri)
	c.w.WriteHeader(code)
	return nil
}
```

Note the source sets the Location header on `c.r` (the inbound REQUEST), not
on the response writer `c.w`. -/
def YeeCtx.Redirect (c : YeeCtx) (code : Int) (uri : String) :
    YeeCtx × Option YeeError :=
  if code < 300 ∨ code > 308 then (c, some YeeError.ErrInvalidRedirectCode)
  else
    ({ c with ReqHeaders := assocSet c.ReqHeaders "Location" uri,
              Status := commitStatus c.Status code }, none)

/-- Source `Scheme` (part_000 lines 220-235): forwarding headers in fixed priority
order, falling back to `"http"`. -/
def YeeCtx.Scheme (c : YeeCtx) : String :=
  let scheme := "http"
  if assocGet c.ReqHeaders HeaderXForwardedProto ≠ "" then
    assocGet c.ReqHeaders HeaderXForwardedProto
  else if assocGet c.ReqHeaders HeaderXForwardedProtocol ≠ "" then
    assocGet c.ReqHeaders HeaderXForwardedProtocol
  else if assocGet c.ReqHeaders HeaderXForwardedSsl = "on" then "https"
  else if assocGet c.ReqHeaders HeaderXUrlScheme ≠ "" then
    assocGet c.ReqHeaders HeaderXUrlScheme
  else scheme

/-! ## The CSRF middleware (src/middleware/csrf.go) -/

/-- Source `CSRFConfig` (csrf.go lines 15-25); `TokenLength` is a Go `uint8`. -/
structure CSRFConfig where
  TokenLength : Nat
  TokenLookup : String
  Key : String
  CookieName : String
  CookieDomain : String
  CookiePath : String
  CookieMaxAge : Int
  CookieSecure : Bool
  CookieHTTPOnly : Bool
  deriving DecidableEq, Repr

/-- Source `CSRFDefaultConfig` (csrf.go lines 30-36). -/
def CSRFDefaultConfig : CSRFConfig :=
  { TokenLength := 16
    TokenLookup := "header:" ++ HeaderXCSRFToken
    Key := "csrf"
    CookieName := "_csrf"
    CookieDomain := ""
    CookiePath := ""
    CookieMaxAge := 28800
    CookieSecure := false
    CookieHTTPOnly := false }

/-- The option defaulting performed by `CSRFWithConfig` before it builds the
handler (csrf.go lines 46-64). -/
def csrfResolveConfig (config : CSRFConfig) : CSRFConfig :=
  let c1 := if config.TokenLength = 0 then
      { config with TokenLength := CSRFDefaultConfig.TokenLength } else config
  let c2 := if c1.TokenLookup = "" then
      { c1 with TokenLookup := CSRFDefaultConfig.TokenLookup } else c1
  let c3 := if c2.Key = "" then { c2 with Key := CSRFDefaultConfig.Key }
    else c2
  let c4 := if c3.CookieName = "" then
      { c3 with CookieName := CSRFDefaultConfig.CookieName } else c3
  if c4.CookieMaxAge = 0 then
    { c4 with CookieMaxAge := CSRFDefaultConfig.CookieMaxAge } else c4

/-- Go `strings.Split` on a one-character separator, at the character-list
level. -/
def splitChar (sep : Char) : List Char → List (List Char)
  | [] => [[]]
  | ch :: cs =>
    match splitChar sep cs with
    | [] => [[]]
    | p :: ps => if ch = sep then [] :: p :: ps else (ch :: p) :: ps

/-- Which token creator `CSRFWithConfig` selects (csrf.go lines 66-75): the
`switch proc[0]` defaults to the header creator. -/
inductive CSRFSource where
  | header
  | query
  | form
  deriving DecidableEq, Repr

/-- Source `proc := strings.Split(config.TokenLookup, ":")` followed by the `switch`
on `proc[0]` with field name `proc[1]` (csrf.go lines 66-75).  The Go code
indexes `proc[1]` unconditionally and would panic on a lookup string without a
colon; such configurations are outside every claim, and the model yields `""`
there. -/
def csrfParseLookup (s : String) : CSRFSource × String :=
  let proc := (splitChar ':' s.toList).map (fun l => String.mk l)
  let fld := (proc.drop 1).headD ""
  match proc.headD "" with
  | "query" => (CSRFSource.query, fld)
  | "form" => (CSRFSource.form, fld)
  | _ => (CSRFSource.header, fld)

/-- Source `csrfTokenFromHeader` (csrf.go lines 126-134). -/
def csrfTokenFromHeader (header : String) (c : YeeCtx) :
    Except String String :=
  let token := c.GetHeader header
  if token = "" then Except.error "missing csrf token in the header string"
  else Except.ok token

/-- Source `csrfTokenFromQuery` (csrf.go lines 136-144). -/
def csrfTokenFromQuery (param : String) (c : YeeCtx) :
    Except String String :=
  let token := c.QueryParam param
  if token = "" then Except.error "missing csrf token in the query string"
  else Except.ok token

/-- Source `csrfTokenFromForm` (csrf.go lines 146-154). -/
def csrfTokenFromForm (param : String) (c : YeeCtx) :
    Except String String :=
  let token := c.FormValue param
  if token = "" then Except.error "missing csrf token in the form string"
  else Except.ok token

/-- The client-token extraction the configured creator performs
(`creator(context)` in csrf.go line 95). -/
def csrfExtract (cfg : CSRFConfig) (c : YeeCtx) : Except String String :=
  match (csrfParseLookup cfg.TokenLookup).1 with
  | CSRFSource.header => csrfTokenFromHeader (csrfParseLookup cfg.TokenLookup).2 c
  | CSRFSource.query => csrfTokenFromQuery (csrfParseLookup cfg.TokenLookup).2 c
  | CSRFSource.form => csrfTokenFromForm (csrfParseLookup cfg.TokenLookup).2 c

/-- The raw value sitting at the configured lookup location, before the
creators' emptiness check. -/
def csrfClientLookup (cfg : CSRFConfig) (c : YeeCtx) : String :=
  match (csrfParseLookup cfg.TokenLookup).1 with
  | CSRFSource.header => c.GetHeader (csrfParseLookup cfg.TokenLookup).2
  | CSRFSource.query => c.QueryParam (csrfParseLookup cfg.TokenLookup).2
  | CSRFSource.form => c.FormValue (csrfParseLookup cfg.TokenLookup).2

/-- Source `validateCSRFToken` (csrf.go lines 155-157):
`subtle.ConstantTimeCompare([]byte(token), []byte(clientToken)) == 1` holds
exactly when the two byte slices are equal, i.e. when the strings are equal
(the constant-time execution profile is a timing property outside this
functional model). -/
def validateCSRFToken (token clientToken : String) : Bool :=
  token == clientToken

/-- The hexadecimal alphabet `google/uuid` renders with (lowercase). -/
def csrfHexAlphabet : List Char := String.toList "0123456789abcdef"

/-- One lowercase hex digit. -/
def hexChar (n : Fin 16) : Char := List.getD csrfHexAlphabet n.1 '0'

/-- Modelled from the spec / RFC 4122: `uuid.New().String()` renders 16 random
bytes (32 hex nibbles `d`) as the canonical 8-4-4-4-12 dashed form (the
`google/uuid` library is an external collaborator; only the shape of its
output matters here). -/
def uuidStringChars (d : List (Fin 16)) : List Char :=
  (d.take 8).map hexChar ++ ['-'] ++
  ((d.drop 8).take 4).map hexChar ++ ['-'] ++
  ((d.drop 12).take 4).map hexChar ++ ['-'] ++
  ((d.drop 16).take 4).map hexChar ++ ['-'] ++
  (d.drop 20).map hexChar

/-- Go `strings.Replace(uuid.New().String(), "-", "", -1)` (csrf.go line 87):
remove every dash from the rendered UUID. -/
def csrfFreshToken (d : List (Fin 16)) : List Char :=
  (uuidStringChars d).filter (fun ch => ch ≠ '-')

/-- The reference token (csrf.go lines 84-90): reuse the request cookie named
`cfg.CookieName` when present, otherwise generate a fresh token from the UUID
nibbles `d`. -/
def csrfReferenceToken (cfg : CSRFConfig) (d : List (Fin 16)) (c : YeeCtx) :
    String :=
  match c.Cookie cfg.CookieName with
  | none => String.mk (csrfFreshToken d)
  | some v => v

/-- The `nCookie` the CSRF handler builds on an allowed path (csrf.go lines
105-116): configured name, the reference token as value, `Path`/`Domain` only
when configured non-empty (the zero value otherwise), the configured max-age
(via the absolute `Expires` stamp), secure and http-only flags. -/
def csrfCookie (cfg : CSRFConfig) (token : String) : Cookie :=
  { Name := cfg.CookieName
    Value := token
    Path := if cfg.CookiePath ≠ "" then cfg.CookiePath else ""
    Domain := if cfg.CookieDomain ≠ "" then cfg.CookieDomain else ""
    MaxAge := cfg.CookieMaxAge
    Secure := cfg.CookieSecure
    HttpOnly := cfg.CookieHTTPOnly }

/-- The allowed-path tail of the CSRF handler (csrf.go lines 105-122): build
the cookie, `SetCookie`, `Put` the token under the configured key, set
`Vary: Cookie`, call `Next()`, return nil. -/
def csrfAllow (cfg : CSRFConfig) (token : String) (c : YeeCtx) :
    YeeCtx × Option String :=
  let c1 := c.SetCookie (csrfCookie cfg token)
  let c2 := c1.Put cfg.Key token
  let c3 := c2.SetHeader HeaderVary HeaderCookie
  ({ c3 with NextCalled := true }, none)

/-- Whether the request method is in the safe-method `case` of csrf.go lines
92-93 (`GET, TRACE, OPTIONS, HEAD`). -/
def isSafeCSRFMethod (m : String) : Bool :=
  m == "GET" || m == "TRACE" || m == "OPTIONS" || m == "HEAD"

/-- The handler `CSRFWithConfig(config)` returns (csrf.go lines 44-124),
acting on one request context.  `d` stands for the 32 random UUID nibbles
drawn when a fresh token must be generated.  The second component is the
handler's returned `error` (`none` = nil). -/
def CSRFWithConfig (config : CSRFConfig) (d : List (Fin 16)) (c : YeeCtx) :
    YeeCtx × Option String :=
  let cfg := csrfResolveConfig config
  let token := csrfReferenceToken cfg d c
  if isSafeCSRFMethod c.Method then csrfAllow cfg token c
  else
    match csrfExtract cfg c with
    | Except.error e => c.ServerError 400 e
    | Except.ok clientToken =>
      if !(validateCSRFToken token clientToken) then
        c.ServerError 403 "invalid csrf token"
      else csrfAllow cfg token c

/-! ## The access-logger middleware (src/unnamed/part_001 and part_002) -/

/-- The two severities the threshold variant uses and the extra `trace` the
exact-200 variant uses (the external sink's methods `Info`, `Warn`,
`Trace`). -/
inductive LogSeverity where
  | trace
  | info
  | warn
  deriving DecidableEq, Repr

/-- Severity selection of the threshold variant (src/unnamed/part_001 lines
88-92): `if context.Response().Status() < 400 { logger.Info(s) } else {
logger.Warn(s) }`. -/
def loggerThresholdSeverity (status : Int) : LogSeverity :=
  if status < 400 then LogSeverity.info else LogSeverity.warn

/-- Severity selection of the exact-200 variant (src/unnamed/part_002 lines
91-95): `if context.Response().Status() == 200 { logger.Trace(s) } else {
logger.Warn(s) }`. -/
def loggerExactSeverity (status : Int) : LogSeverity :=
  if status = 200 then LogSeverity.trace else LogSeverity.warn

/-- Source `LoggerConfig` (part_001 lines 14-20 / part_002 lines 11-17);
`Level` is a Go `uint8`. -/
structure LoggerConfig where
  Format : String
  Level : Nat
  IsLogger : Bool
  deriving DecidableEq, Repr

/-- Source `DefaultLoggerConfig` of the threshold variant (part_001 lines 23-27). -/
def DefaultLoggerConfigThreshold : LoggerConfig :=
  { Format := "\"url\":\"${url}\" \"method\":\"${method}\" \"status\":${status} \"protocol\":\"${protocol}\" \"remote_ip\":\"${remote_ip}\" \"bytes_in\": \"${bytes_in} bytes\" \"bytes_out\": \"${bytes_out} bytes\""
    Level := 3
    IsLogger := true }

/-- Source `DefaultLoggerConfig` of the exact-200 variant (part_002 lines 19-23; it
adds the `error` field). -/
def DefaultLoggerConfigExact : LoggerConfig :=
  { Format := "\"url\":\"${url}\" \"method\":\"${method}\" \"status\":${status} \"protocol\":\"${protocol}\" \"remote_ip\":\"${remote_ip}\" \"error\":\"${error}\" \"bytes_in\": \"${bytes_in} bytes\" \"bytes_out\": \"${bytes_out} bytes\""
    Level := 3
    IsLogger := true }

/-- What middleware construction produces: either the process dies
(`log.Fatalf` prints and exits before any request is served) or a
`yee.HandlerFunc` is returned to be installed. -/
inductive LoggerConstruction where
  | fatalExit (msg : String)
  | handler
  deriving DecidableEq, Repr

/-- The config defaulting `LoggerWithConfig` performs in the threshold
variant (part_001 lines 36-42). -/
def loggerResolveThreshold (config : LoggerConfig) : LoggerConfig :=
  let c1 := if config.Format = "" then
      { config with Format := DefaultLoggerConfigThreshold.Format } else config
  if c1.Level = 0 then
    { c1 with Level := DefaultLoggerConfigThreshold.Level } else c1

/-- The config defaulting `LoggerWithConfig` performs in the exact-200
variant (part_002 lines 30-38), which also forces `IsLogger = true`. -/
def loggerResolveExact (config : LoggerConfig) : LoggerConfig :=
  let c1 := if config.Format = "" then
      { config with Format := DefaultLoggerConfigExact.Format } else config
  let c2 := if c1.Level = 0 then
      { c1 with Level := DefaultLoggerConfigExact.Level } else c1
  { c2 with IsLogger := true }

/-- Source `LoggerWithConfig` of the threshold variant (src/unnamed/part_001 lines
35-95), up to the installed handler's body: default the config, parse the
format template (`fasttemplate.NewTemplate`, an external collaborator passed
here as `parse`), and on parse failure call
`log.Fatalf("unexpected error when parsing template: %s", err)` — fatal to
process startup.  On success a handler is returned. -/
def LoggerWithConfigThreshold (parse : String → Except String Unit)
    (config : LoggerConfig) : LoggerConstruction :=
  match parse (loggerResolveThreshold config).Format with
  | Except.error e =>
    LoggerConstruction.fatalExit ("unexpected error when parsing template: " ++ e)
  | Except.ok _ => LoggerConstruction.handler

/-- Source `LoggerWithConfig` of the exact-200 variant (src/unnamed/part_002 lines
29-101): same defaulting, but the template parse error is silently discarded
— the `if err != nil` body is commented out (part_002 lines 42-44) — and a
handler is returned regardless. -/
def LoggerWithConfigExact (parse : String → Except String Unit)
    (config : LoggerConfig) : LoggerConstruction :=
  match parse (loggerResolveExact config).Format with
  | Except.error _ => LoggerConstruction.handler
  | Except.ok _ => LoggerConstruction.handler

theorem natRange_succ (n : Nat) :
    natRange (n + 1) = natRange n ++ [(n : Int)] := by
  simp [natRange, List.range_succ]

theorem step_loop_exit (hs : List HandlerBehavior) (rest : List Frame)
    (ix : Int) (ic : Bool) (iv : List Int) (h : ¬ ix < (hs.length : Int)) :
    step hs ⟨Frame.loop :: rest, ix, ic, iv⟩ = ⟨rest, ix, ic, iv⟩ := by
  simp [step, h]

theorem step_loop_break (hs : List HandlerBehavior) (rest : List Frame)
    (ix : Int) (iv : List Int) (h : ix < (hs.length : Int)) :
    step hs ⟨Frame.loop :: rest, ix, true, iv⟩ = ⟨rest, ix, true, iv⟩ := by
  simp [step, h]

theorem step_loop_invoke (hs : List HandlerBehavior) (rest : List Frame)
    (ix : Int) (iv : List Int) (hd : HandlerBehavior)
    (h : ix < (hs.length : Int)) (hg : hs.get? ix.toNat = some hd) :
    step hs ⟨Frame.loop :: rest, ix, false, iv⟩ =
      ⟨Frame.body hd.nexts hd.fails :: Frame.loop :: rest, ix, false,
       iv ++ [ix]⟩ := by
  simp only [step, if_pos h, if_neg (by simp : ¬ (false = true))]
  rw [hg]

theorem step_body_succ (hs : List HandlerBehavior) (k : Nat) (f : Bool)
    (rest : List Frame) (ix : Int) (ic : Bool) (iv : List Int) :
    step hs ⟨Frame.body (k + 1) f :: rest, ix, ic, iv⟩ =
      ⟨Frame.loop :: Frame.body k f :: rest, ix + 1, ic, iv⟩ := rfl

theorem step_body_zero (hs : List HandlerBehavior) (f : Bool)
    (rest : List Frame) (ix : Int) (ic : Bool) (iv : List Int) :
    step hs ⟨Frame.body 0 f :: rest, ix, ic, iv⟩ =
      ⟨rest, ix + 1, ic || f, iv⟩ := rfl

theorem chainInv_init (hs : List HandlerBehavior) :
    chainInv hs (callNext newChain) :=
  ⟨trivial, rfl, Nat.zero_le _,
   Or.inr (Or.inr (Or.inr (Or.inl ⟨[], rfl, by decide⟩)))⟩

theorem chainInv_step (hs : List HandlerBehavior) (c : ChainState)
    (h : chainInv hs c) : chainInv hs (step hs c) := by
  obtain ⟨st, ix, ic, iv⟩ := c
  obtain ⟨hwf, hinv, hlen, hshape⟩ := h
  dsimp only at hwf hinv hlen hshape
  cases st with
  | nil => exact ⟨hwf, hinv, hlen, hshape⟩
  | cons fr rest =>
  cases fr with
  | loop =>
    by_cases hidx : ix < (hs.length : Int)
    · cases ic with
      | true =>
        -- intercept set: `break` (lines 77-79)
        rw [step_loop_break hs rest ix iv hidx]
        exact ⟨hwf, hinv, hlen, Or.inr (Or.inr (Or.inl rfl))⟩
      | false =>
        -- invoke the handler at the cursor (line 80)
        have hix : ix = (iv.length : Int) := by
          rcases hshape with h1 | h2 | h3 | ⟨r, hr, hx⟩ | ⟨k, f, r, hr, hx⟩
          · exact absurd h1 (by simp)
          · exact absurd hidx (not_lt.mpr h2)
          · cases h3
          · exact hx
          · exact absurd hr (by simp)
        have hlt : iv.length < hs.length := by omega
        have htn : ix.toNat = iv.length := by omega
        have hget : hs.get? ix.toNat = some (hs.get ⟨iv.length, hlt⟩) := by
          rw [htn, List.get?_eq_get hlt]
        rw [step_loop_invoke hs rest ix iv _ hidx hget]
        refine ⟨⟨rfl, hwf⟩, ?_, ?_, ?_⟩
        · show iv ++ [ix] = natRange (iv ++ [ix]).length
          have h1 : (iv ++ [ix]).length = iv.length + 1 := by simp
          rw [h1, natRange_succ, ← hinv, hix]
        · show (iv ++ [ix]).length ≤ hs.length
          simp only [List.length_append, List.length_singleton]
          omega
        · refine Or.inr (Or.inr (Or.inr (Or.inr ⟨_, _, _, rfl, ?_⟩)))
          show ix + 1 = ((iv ++ [ix]).length : Int)
          simp only [List.length_append, List.length_singleton]
          omega
    · -- loop condition fails: `Next` returns (line 76)
      rw [step_loop_exit hs rest ix ic iv hidx]
      exact ⟨hwf, hinv, hlen,
        Or.inr (Or.inl (show (hs.length : Int) ≤ ix by omega))⟩
  | body k f =>
    obtain ⟨hhd, hwfr⟩ := hwf
    have hshape' : (hs.length : Int) ≤ ix ∨ ic = true ∨
        ix + 1 = (iv.length : Int) := by
      rcases hshape with h1 | h2 | h3 | ⟨r, hr, hx⟩ | ⟨k', f', r, hr, hx⟩
      · exact absurd h1 (by simp)
      · exact Or.inl h2
      · exact Or.inr (Or.inl h3)
      · exact absurd hr (by simp)
      · exact Or.inr (Or.inr hx)
    cases k with
    | zero =>
      -- handler body returns: record the error, `c.index++` (lines 80-82, 76)
      rw [step_body_zero hs f rest ix ic iv]
      refine ⟨hwfr, hinv, hlen, ?_⟩
      rcases hshape' with h2 | h3 | hx
      · exact Or.inr (Or.inl (show (hs.length : Int) ≤ ix + 1 by omega))
      · exact Or.inr (Or.inr (Or.inl (show (ic || f) = true by simp [h3])))
      · cases rest with
        | nil => cases hhd
        | cons hd tl =>
          cases hd with
          | loop =>
            exact Or.inr (Or.inr (Or.inr (Or.inl
              ⟨tl, rfl, show ix + 1 = (iv.length : Int) from hx⟩)))
          | body k'' f'' => simp at hhd
    | succ k' =>
      -- the handler calls `c.Next()` (lines 73-76)
      rw [step_body_succ hs k' f rest ix ic iv]
      refine ⟨⟨hhd, hwfr⟩, hinv, hlen, ?_⟩
      rcases hshape' with h2 | h3 | hx
      · exact Or.inr (Or.inl (show (hs.length : Int) ≤ ix + 1 by omega))
      · exact Or.inr (Or.inr (Or.inl h3))
      · exact Or.inr (Or.inr (Or.inr (Or.inl ⟨Frame.body k' f :: rest, rfl,
          show ix + 1 = (iv.length : Int) from hx⟩)))

theorem chainInv_run (hs : List HandlerBehavior) (n : Nat) :
    chainInv hs (run hs n) := by
  induction n with
  | zero => exact chainInv_init hs
  | succ n ih => exact chainInv_step hs (run hs n) ih

theorem natRange_pairwise (n : Nat) : (natRange n).Pairwise (· < ·) := by
  refine List.Pairwise.map _ ?_ (List.pairwise_lt_range n)
  intro a b hab
  exact Int.ofNat_lt.mpr hab

theorem natRange_nodup (n : Nat) : (natRange n).Nodup :=
  (natRange_pairwise n).imp (fun h => ne_of_lt h)

theorem step_intercept_frozen (hs : List HandlerBehavior) (c : ChainState)
    (h : c.intercept = true) :
    (step hs c).intercept = true ∧ (step hs c).invoked = c.invoked := by
  obtain ⟨st, ix, ic, iv⟩ := c
  dsimp only at h
  subst h
  cases st with
  | nil => exact ⟨rfl, rfl⟩
  | cons fr rest =>
    cases fr with
    | loop =>
      by_cases hidx : ix < (hs.length : Int)
      · rw [step_loop_break hs rest ix iv hidx]; exact ⟨rfl, rfl⟩
      · rw [step_loop_exit hs rest ix true iv hidx]; exact ⟨rfl, rfl⟩
    | body k f =>
      cases k with
      | zero => rw [step_body_zero]; exact ⟨rfl, rfl⟩
      | succ k' => rw [step_body_succ]; exact ⟨rfl, rfl⟩

theorem run_frozen (hs : List HandlerBehavior) (n k : Nat)
    (h : (run hs n).intercept = true) :
    (run hs (n + k)).intercept = true ∧
    (run hs (n + k)).invoked = (run hs n).invoked := by
  induction k with
  | zero => exact ⟨h, rfl⟩
  | succ k ih =>
    have hstep := step_intercept_frozen hs (run hs (n + k)) ih.1
    exact ⟨hstep.1, hstep.2.trans ih.2⟩

theorem step_stack_body_zero (hs : List HandlerBehavior) (c : ChainState)
    (f : Bool) (rest : List Frame)
    (h : c.stack = Frame.body 0 f :: rest) :
    step hs c = ⟨rest, c.index + 1, c.intercept || f, c.invoked⟩ := by
  obtain ⟨st, ix, ic, iv⟩ := c
  dsimp only at h ⊢
  subst h
  rfl

/-! ## Claim theorems -/

/-- C1: For every handler list and every pattern of (re)entrant `Next()`
calls on one Context — each handler characterised by how many times its body
calls `Next()` and whether it returns a non-nil error — at every point of the
chain's execution the trace of invoked handler indices is exactly
`[0, 1, ..., m-1]` for some `m ≤ length`: no handler index is invoked more
than once over the Context's lifetime, and the handlers that are invoked are
invoked in list order up to the first stop. -/
theorem chain_invokes_in_order_at_most_once
    (hs : List HandlerBehavior) (n : Nat) :
    (run hs n).invoked = natRange (run hs n).invoked.length ∧
    (run hs n).invoked.Nodup ∧
    (run hs n).invoked.Pairwise (· < ·) ∧
    (run hs n).invoked.length ≤ hs.length := by
  obtain ⟨-, hinv, hlen, -⟩ := chainInv_run hs n
  refine ⟨hinv, ?_, ?_, hlen⟩
  · rw [hinv]; exact natRange_nodup _
  · rw [hinv]; exact natRange_pairwise _

/-- C2: if a handler returns a non-nil error during a chain run (a finished
handler body with `fails = true` on top of the executor stack at step `n`),
the executor records the halt: `intercept` is set at step `n + 1` and stays
set, and the invoked trace never grows afterwards — no handler at any index
beyond the point of failure is invoked in that execution of `Next` (or in any
nested one).  The error travels purely as a returned value interpreted by the
executor's `intercept` flag; `step` is a total function on executor states, so
no exception crosses the chain boundary. -/
theorem chain_halts_after_handler_error (hs : List HandlerBehavior)
    (n m : Nat) (herr : (run hs n).stack.head? = some (Frame.body 0 true))
    (hnm : n < m) :
    (run hs m).intercept = true ∧
    (run hs m).invoked = (run hs (n + 1)).invoked := by
  have hset : (run hs (n + 1)).intercept = true := by
    cases hst : (run hs n).stack with
    | nil => rw [hst] at herr; cases herr
    | cons fr rest =>
      rw [hst] at herr
      have hfr : fr = Frame.body 0 true := by simpa using herr
      subst hfr
      have hstep : run hs (n + 1) = step hs (run hs n) := rfl
      rw [hstep, step_stack_body_zero hs (run hs n) true rest hst]
      simp
  obtain ⟨k, rfl⟩ : ∃ k, m = (n + 1) + k := ⟨m - (n + 1), by omega⟩
  exact ⟨(run_frozen hs (n + 1) k hset).1, (run_frozen hs (n + 1) k hset).2⟩

/-- Witness for C2: the one-handler chain whose handler returns an error; at
step 1 its finished body is on top, and from step 2 on the chain is halted
with only handler 0 ever invoked. -/
theorem chain_halts_after_handler_error_witness :
    (run [⟨0, true, false⟩] 1).stack.head? = some (Frame.body 0 true) ∧
    (1 : Nat) < 2 ∧
    ((run [⟨0, true, false⟩] 2).intercept = true ∧
     (run [⟨0, true, false⟩] 2).invoked = (run [⟨0, true, false⟩] (1 + 1)).invoked) :=
  ⟨by decide, by decide,
   chain_halts_after_handler_error [⟨0, true, false⟩] 1 2 (by decide) (by decide)⟩

/-- C3 (code bug, evaluated at the failing input): `Redirect(301, "/x")` on a
fresh context returns nil and commits status 301, but the Location header
lands in the REQUEST headers (`c.r.Header.Set("Location", uri)`, part_000
line 245) while the response's Location header stays unset — the response
header the claim (and any HTTP redirect) requires is never written.  The
out-of-range branch behaves as claimed: `Redirect(200, "/x")` returns
`ErrInvalidRedirectCode` and leaves the context untouched (response
uncommitted). -/
theorem redirect_writes_request_location_not_response :
    (emptyCtx.Redirect 301 "/x").2 = none ∧
    (emptyCtx.Redirect 301 "/x").1.Status = some 301 ∧
    assocGet (emptyCtx.Redirect 301 "/x").1.ReqHeaders "Location" = "/x" ∧
    assocGet (emptyCtx.Redirect 301 "/x").1.RespHeaders "Location" = "" ∧
    (emptyCtx.Redirect 200 "/x").2 = some YeeError.ErrInvalidRedirectCode ∧
    (emptyCtx.Redirect 200 "/x").1 = emptyCtx ∧
    (emptyCtx.Redirect 200 "/x").1.Status = none := by
  decide

/-- C7: the access-logger middleware emits at a severity chosen by the final
status: the threshold variant (part_001) logs statuses strictly below 400 at
`Info` and 400-or-above at `Warn`; the exact-200 variant (part_002) logs
status 200 at `Trace` and everything else at `Warn`.  In both variants a
status-200 chain logs at that variant's lowest severity, and 404 or 500 log
at `Warn`. -/
theorem logger_severity_selection (status : Int) :
    (status < 400 → loggerThresholdSeverity status = LogSeverity.info) ∧
    (400 ≤ status → loggerThresholdSeverity status = LogSeverity.warn) ∧
    (status = 200 → loggerExactSeverity status = LogSeverity.trace) ∧
    (status ≠ 200 → loggerExactSeverity status = LogSeverity.warn) ∧
    loggerThresholdSeverity 200 = LogSeverity.info ∧
    loggerExactSeverity 200 = LogSeverity.trace ∧
    loggerThresholdSeverity 404 = LogSeverity.warn ∧
    loggerThresholdSeverity 500 = LogSeverity.warn ∧
    loggerExactSeverity 404 = LogSeverity.warn ∧
    loggerExactSeverity 500 = LogSeverity.warn := by
  refine ⟨fun h => ?_, fun h => ?_, fun h => ?_, fun h => ?_,
    by decide, by decide, by decide, by decide, by decide, by decide⟩
  · simp [loggerThresholdSeverity, h]
  · simp [loggerThresholdSeverity, not_lt.mpr h]
  · simp [loggerExactSeverity, h]
  · simp [loggerExactSeverity, h]

/-- Witness for C7 at concrete statuses 200, 404, 500. -/
theorem logger_severity_selection_witness :
    loggerThresholdSeverity 200 = LogSeverity.info ∧
    loggerThresholdSeverity 404 = LogSeverity.warn ∧
    loggerExactSeverity 200 = LogSeverity.trace ∧
    loggerExactSeverity 500 = LogSeverity.warn :=
  ⟨(logger_severity_selection 200).1 (by decide),
   (logger_severity_selection 404).2.1 (by decide),
   (logger_severity_selection 200).2.2.1 rfl,
   (logger_severity_selection 500).2.2.2.1 (by decide)⟩

/-- C8 counterexample: the claim says template-parse failure is fatal to
startup "in every logger variant", but the exact-200 variant (part_002)
discards the parse error — the `if err != nil` body is commented out
(part_002 lines 42-44) — and construction still returns a handler. -/
theorem logger_exact_variant_ignores_parse_error_cex :
    LoggerWithConfigExact (fun _ => Except.error "unclosed tag")
      { Format := "bad", Level := 0, IsLogger := false } =
      LoggerConstruction.handler := by
  rfl

/-- C8 amended: template-parse failure at construction time is fatal in the
threshold variant (part_001 lines 44-48, `log.Fatalf` stops the process
before any request is served), but the exact-200 variant (part_002) ignores
the parse outcome and returns a handler regardless. -/
theorem logger_parse_failure_fatal_threshold_only
    (parse : String → Except String Unit) (config : LoggerConfig) :
    (∀ e, parse (loggerResolveThreshold config).Format = Except.error e →
      LoggerWithConfigThreshold parse config =
        LoggerConstruction.fatalExit
          ("unexpected error when parsing template: " ++ e)) ∧
    LoggerWithConfigExact parse config = LoggerConstruction.handler := by
  constructor
  · intro e h
    unfold LoggerWithConfigThreshold
    rw [h]
  · unfold LoggerWithConfigExact
    cases parse (loggerResolveExact config).Format <;> rfl

/-- Witness for the amended C8: a concrete failing parse on a concrete config
is fatal in the threshold variant and ignored in the exact-200 variant. -/
theorem logger_parse_failure_fatal_threshold_only_witness :
    LoggerWithConfigThreshold (fun _ => Except.error "unclosed tag")
      { Format := "bad", Level := 0, IsLogger := false } =
      LoggerConstruction.fatalExit
        ("unexpected error when parsing template: " ++ "unclosed tag") ∧
    LoggerWithConfigExact (fun _ => Except.error "unclosed tag")
      { Format := "bad", Level := 0, IsLogger := false } =
      LoggerConstruction.handler :=
  ⟨(logger_parse_failure_fatal_threshold_only (fun _ => Except.error "unclosed tag")
      { Format := "bad", Level := 0, IsLogger := false }).1 "unclosed tag" rfl,
   (logger_parse_failure_fatal_threshold_only (fun _ => Except.error "unclosed tag")
      { Format := "bad", Level := 0, IsLogger := false }).2⟩

/-- C9: `Scheme()` resolves the scheme by checking the forwarding request
headers in the fixed priority order `X-Forwarded-Proto`, then
`X-Forwarded-Protocol`, then `X-Forwarded-Ssl == "on"` (yielding `"https"`),
then `X-Url-Scheme`, returning the first applicable value and defaulting to
`"http"` when none applies. -/
theorem scheme_resolution_priority (c : YeeCtx) :
    (assocGet c.ReqHeaders HeaderXForwardedProto ≠ "" →
      c.Scheme = assocGet c.ReqHeaders HeaderXForwardedProto) ∧
    (assocGet c.ReqHeaders HeaderXForwardedProto = "" →
      assocGet c.ReqHeaders HeaderXForwardedProtocol ≠ "" →
      c.Scheme = assocGet c.ReqHeaders HeaderXForwardedProtocol) ∧
    (assocGet c.ReqHeaders HeaderXForwardedProto = "" →
      assocGet c.ReqHeaders HeaderXForwardedProtocol = "" →
      assocGet c.ReqHeaders HeaderXForwardedSsl = "on" →
      c.Scheme = "https") ∧
    (assocGet c.ReqHeaders HeaderXForwardedProto = "" →
      assocGet c.ReqHeaders HeaderXForwardedProtocol = "" →
      assocGet c.ReqHeaders HeaderXForwardedSsl ≠ "on" →
      assocGet c.ReqHeaders HeaderXUrlScheme ≠ "" →
      c.Scheme = assocGet c.ReqHeaders HeaderXUrlScheme) ∧
    (assocGet c.ReqHeaders HeaderXForwardedProto = "" →
      assocGet c.ReqHeaders HeaderXForwardedProtocol = "" →
      assocGet c.ReqHeaders HeaderXForwardedSsl ≠ "on" →
      assocGet c.ReqHeaders HeaderXUrlScheme = "" →
      c.Scheme = "http") := by
  refine ⟨fun h1 => ?_, fun h1 h2 => ?_, fun h1 h2 h3 => ?_,
    fun h1 h2 h3 h4 => ?_, fun h1 h2 h3 h4 => ?_⟩
  · simp [YeeCtx.Scheme, h1]
  · simp [YeeCtx.Scheme, h1, h2]
  · simp [YeeCtx.Scheme, h1, h2, h3]
  · simp [YeeCtx.Scheme, h1, h2, h3, h4]
  · simp [YeeCtx.Scheme, h1, h2, h3, h4]

/-- Witness for C9: a request carrying both `X-Forwarded-Proto: https` and
`X-Forwarded-Ssl: on` resolves via the proto header; only `X-Forwarded-Ssl:
on` resolves to `"https"`; no forwarding header resolves to `"http"`. -/
theorem scheme_resolution_priority_witness :
    YeeCtx.Scheme { emptyCtx with ReqHeaders :=
      [(HeaderXForwardedProto, "https"), (HeaderXForwardedSsl, "on")] } = "https" ∧
    YeeCtx.Scheme { emptyCtx with ReqHeaders :=
      [(HeaderXForwardedSsl, "on")] } = "https" ∧
    YeeCtx.Scheme emptyCtx = "http" := by
  refine ⟨?_, ?_, ?_⟩
  · have h := (scheme_resolution_priority { emptyCtx with ReqHeaders :=
      [(HeaderXForwardedProto, "https"), (HeaderXForwardedSsl, "on")] }).1
      (by decide)
    rw [h]; decide
  · exact (scheme_resolution_priority { emptyCtx with ReqHeaders :=
      [(HeaderXForwardedSsl, "on")] }).2.2.1 (by decide) (by decide) (by decide)
  · exact (scheme_resolution_priority emptyCtx).2.2.2.2
      (by decide) (by decide) (by decide) (by decide)

theorem serverError_proj (c : YeeCtx) (code : Int) (msg : String) :
    (c.ServerError code msg).1.Status = commitStatus c.Status code ∧
    (c.ServerError code msg).1.NextCalled = c.NextCalled ∧
    (c.ServerError code msg).2 = some msg := by
  unfold YeeCtx.ServerError
  by_cases h : c.GetHeader "Content-Type" = "" <;> simp [h, YeeCtx.SetHeader]

theorem csrfAllow_proj (cfg : CSRFConfig) (token : String) (c : YeeCtx) :
    (csrfAllow cfg token c).1.NextCalled = true ∧
    (csrfAllow cfg token c).2 = none ∧
    (csrfAllow cfg token c).1.RespCookies =
      c.RespCookies ++ [csrfCookie cfg token] ∧
    assocGet (csrfAllow cfg token c).1.RespHeaders HeaderVary = HeaderCookie ∧
    (csrfAllow cfg token c).1.Get cfg.Key = some token ∧
    (csrfAllow cfg token c).1.Status = c.Status := by
  unfold csrfAllow YeeCtx.SetCookie YeeCtx.Put YeeCtx.SetHeader YeeCtx.Get
  refine ⟨rfl, rfl, rfl, ?_, ?_, rfl⟩
  · simp [assocGet, assocSet]
  · simp

theorem csrfServe_safe (config : CSRFConfig) (d : List (Fin 16)) (c : YeeCtx)
    (hm : isSafeCSRFMethod c.Method = true) :
    CSRFWithConfig config d c =
      csrfAllow (csrfResolveConfig config)
        (csrfReferenceToken (csrfResolveConfig config) d c) c := by
  unfold CSRFWithConfig
  simp [hm]

theorem csrfServe_extract_error (config : CSRFConfig) (d : List (Fin 16))
    (c : YeeCtx) (e : String) (hm : isSafeCSRFMethod c.Method = false)
    (hex : csrfExtract (csrfResolveConfig config) c = Except.error e) :
    CSRFWithConfig config d c = c.ServerError 400 e := by
  unfold CSRFWithConfig
  simp [hm, hex]

theorem csrfServe_token_mismatch (config : CSRFConfig) (d : List (Fin 16))
    (c : YeeCtx) (t : String) (hm : isSafeCSRFMethod c.Method = false)
    (hex : csrfExtract (csrfResolveConfig config) c = Except.ok t)
    (hval : validateCSRFToken
      (csrfReferenceToken (csrfResolveConfig config) d c) t = false) :
    CSRFWithConfig config d c = c.ServerError 403 "invalid csrf token" := by
  unfold CSRFWithConfig
  simp [hm, hex, hval]

theorem csrfServe_token_match (config : CSRFConfig) (d : List (Fin 16))
    (c : YeeCtx) (t : String) (hm : isSafeCSRFMethod c.Method = false)
    (hex : csrfExtract (csrfResolveConfig config) c = Except.ok t)
    (hval : validateCSRFToken
      (csrfReferenceToken (csrfResolveConfig config) d c) t = true) :
    CSRFWithConfig config d c =
      csrfAllow (csrfResolveConfig config)
        (csrfReferenceToken (csrfResolveConfig config) d c) c := by
  unfold CSRFWithConfig
  simp [hm, hex, hval]

/-- C4: on every unsafe-method request: extraction failure yields the
BadRequest outcome — status 400 committed via `reportError`/`ServerError`, the
extraction error returned as the handler's non-nil error value, `Next()` not
called, and no token comparison can have produced it (the Forbidden outcome is
unreachable from this branch); successful extraction leads to the comparison
(`subtle.ConstantTimeCompare`, functionally byte equality): on mismatch status
403 is committed, a non-nil error returned, `Next()` not called; on match the
chain continues (`Next()` called, nil returned).  Both failure paths signal
purely through the returned error value. -/
theorem csrf_unsafe_method_outcomes (config : CSRFConfig) (d : List (Fin 16))
    (c : YeeCtx) (hm : isSafeCSRFMethod c.Method = false)
    (hst : c.Status = none) (hnc : c.NextCalled = false) :
    (∀ e, csrfExtract (csrfResolveConfig config) c = Except.error e →
      (CSRFWithConfig config d c).1.Status = some 400 ∧
      (CSRFWithConfig config d c).2 = some e ∧
      (CSRFWithConfig config d c).1.NextCalled = false) ∧
    (∀ t, csrfExtract (csrfResolveConfig config) c = Except.ok t →
      (validateCSRFToken
          (csrfReferenceToken (csrfResolveConfig config) d c) t = false →
        (CSRFWithConfig config d c).1.Status = some 403 ∧
        (CSRFWithConfig config d c).2 = some "invalid csrf token" ∧
        (CSRFWithConfig config d c).1.NextCalled = false) ∧
      (validateCSRFToken
          (csrfReferenceToken (csrfResolveConfig config) d c) t = true →
        (CSRFWithConfig config d c).1.NextCalled = true ∧
        (CSRFWithConfig config d c).2 = none)) := by
  constructor
  · intro e hex
    rw [csrfServe_extract_error config d c e hm hex]
    obtain ⟨h1, h2, h3⟩ := serverError_proj c 400 e
    exact ⟨by rw [h1, hst]; rfl, h3, by rw [h2, hnc]⟩
  · intro t hex
    constructor
    · intro hval
      rw [csrfServe_token_mismatch config d c t hm hex hval]
      obtain ⟨h1, h2, h3⟩ := serverError_proj c 403 "invalid csrf token"
      exact ⟨by rw [h1, hst]; rfl, h3, by rw [h2, hnc]⟩
    · intro hval
      rw [csrfServe_token_match config d c t hm hex hval]
      obtain ⟨h1, h2, -⟩ := csrfAllow_proj (csrfResolveConfig config)
        (csrfReferenceToken (csrfResolveConfig config) d c) c
      exact ⟨h1, h2⟩

/-- Witness for C4: a POST with no token anywhere under the default config
takes the BadRequest branch. -/
theorem csrf_unsafe_method_outcomes_witness :
    (CSRFWithConfig CSRFDefaultConfig []
      { emptyCtx with Method := "POST" }).1.Status = some 400 ∧
    (CSRFWithConfig CSRFDefaultConfig [] { emptyCtx with Method := "POST" }).2 =
      some "missing csrf token in the header string" ∧
    (CSRFWithConfig CSRFDefaultConfig []
      { emptyCtx with Method := "POST" }).1.NextCalled = false :=
  (csrf_unsafe_method_outcomes CSRFDefaultConfig []
    { emptyCtx with Method := "POST" } (by decide) rfl rfl).1
    "missing csrf token in the header string" rfl

/-- C5: on every allowed path — safe method, or unsafe method whose client
token validates — the CSRF middleware issues a response cookie carrying the
reference token (reused from the request cookie when present, freshly
generated otherwise) with the configured name/domain/path/max-age/secure/
http-only attributes, sets the response header `Vary: Cookie`, stores the
token in the Context store under the configured key, and calls `Next()`
returning nil; safe methods reach this path with no token validation. -/
theorem csrf_allowed_path_effects (config : CSRFConfig) (d : List (Fin 16))
    (c : YeeCtx)
    (hallow : isSafeCSRFMethod c.Method = true ∨
      (isSafeCSRFMethod c.Method = false ∧ ∃ t,
        csrfExtract (csrfResolveConfig config) c = Except.ok t ∧
        validateCSRFToken
          (csrfReferenceToken (csrfResolveConfig config) d c) t = true)) :
    (CSRFWithConfig config d c).2 = none ∧
    (CSRFWithConfig config d c).1.NextCalled = true ∧
    (CSRFWithConfig config d c).1.RespCookies =
      c.RespCookies ++ [csrfCookie (csrfResolveConfig config)
        (csrfReferenceToken (csrfResolveConfig config) d c)] ∧
    assocGet (CSRFWithConfig config d c).1.RespHeaders HeaderVary =
      HeaderCookie ∧
    (CSRFWithConfig config d c).1.Get (csrfResolveConfig config).Key =
      some (csrfReferenceToken (csrfResolveConfig config) d c) ∧
    (∀ v, c.Cookie (csrfResolveConfig config).CookieName = some v →
      csrfReferenceToken (csrfResolveConfig config) d c = v) ∧
    (c.Cookie (csrfResolveConfig config).CookieName = none →
      csrfReferenceToken (csrfResolveConfig config) d c =
        String.mk (csrfFreshToken d)) ∧
    (csrfCookie (csrfResolveConfig config)
        (csrfReferenceToken (csrfResolveConfig config) d c)).Name =
      (csrfResolveConfig config).CookieName ∧
    (csrfCookie (csrfResolveConfig config)
        (csrfReferenceToken (csrfResolveConfig config) d c)).Value =
      csrfReferenceToken (csrfResolveConfig config) d c ∧
    (csrfCookie (csrfResolveConfig config)
        (csrfReferenceToken (csrfResolveConfig config) d c)).MaxAge =
      (csrfResolveConfig config).CookieMaxAge ∧
    (csrfCookie (csrfResolveConfig config)
        (csrfReferenceToken (csrfResolveConfig config) d c)).Secure =
      (csrfResolveConfig config).CookieSecure ∧
    (csrfCookie (csrfResolveConfig config)
        (csrfReferenceToken (csrfResolveConfig config) d c)).HttpOnly =
      (csrfResolveConfig config).CookieHTTPOnly ∧
    ((csrfResolveConfig config).CookiePath ≠ "" →
      (csrfCookie (csrfResolveConfig config)
        (csrfReferenceToken (csrfResolveConfig config) d c)).Path =
      (csrfResolveConfig config).CookiePath) ∧
    ((csrfResolveConfig config).CookieDomain ≠ "" →
      (csrfCookie (csrfResolveConfig config)
        (csrfReferenceToken (csrfResolveConfig config) d c)).Domain =
      (csrfResolveConfig config).CookieDomain) := by
  have hred : CSRFWithConfig config d c =
      csrfAllow (csrfResolveConfig config)
        (csrfReferenceToken (csrfResolveConfig config) d c) c := by
    rcases hallow with hm | ⟨hm, t, hex, hval⟩
    · exact csrfServe_safe config d c hm
    · exact csrfServe_token_match config d c t hm hex hval
  obtain ⟨h1, h2, h3, h4, h5, -⟩ := csrfAllow_proj (csrfResolveConfig config)
    (csrfReferenceToken (csrfResolveConfig config) d c) c
  rw [hred]
  refine ⟨h2, h1, h3, h4, h5, ?_, ?_, rfl, rfl, rfl, rfl, rfl, ?_, ?_⟩
  · intro v hv
    unfold csrfReferenceToken
    rw [hv]
  · intro hv
    unfold csrfReferenceToken
    rw [hv]
  · intro h
    simp [csrfCookie, h]
  · intro h
    simp [csrfCookie, h]

/-- Witness for C5: a GET under the default config refreshes the cookie, sets
`Vary: Cookie`, stores the token under `"csrf"` and continues the chain. -/
theorem csrf_allowed_path_effects_witness :
    (CSRFWithConfig CSRFDefaultConfig (List.replicate 32 (0 : Fin 16))
      emptyCtx).2 = none ∧
    (CSRFWithConfig CSRFDefaultConfig (List.replicate 32 (0 : Fin 16))
      emptyCtx).1.NextCalled = true ∧
    assocGet (CSRFWithConfig CSRFDefaultConfig (List.replicate 32 (0 : Fin 16))
      emptyCtx).1.RespHeaders HeaderVary = HeaderCookie ∧
    (CSRFWithConfig CSRFDefaultConfig (List.replicate 32 (0 : Fin 16))
      emptyCtx).1.Get (csrfResolveConfig CSRFDefaultConfig).Key =
      some (csrfReferenceToken (csrfResolveConfig CSRFDefaultConfig)
        (List.replicate 32 (0 : Fin 16)) emptyCtx) := by
  obtain ⟨h1, h2, -, h4, h5, -⟩ := csrf_allowed_path_effects CSRFDefaultConfig
    (List.replicate 32 (0 : Fin 16)) emptyCtx (Or.inl (by decide))
  exact ⟨h1, h2, h4, h5⟩

theorem csrfExtract_error_of_empty (cfg : CSRFConfig) (c : YeeCtx)
    (h : csrfClientLookup cfg c = "") :
    ∃ e, csrfExtract cfg c = Except.error e := by
  unfold csrfClientLookup at h
  unfold csrfExtract
  cases hsrc : (csrfParseLookup cfg.TokenLookup).1 <;>
    rw [hsrc] at h <;> dsimp only at h
  · exact ⟨"missing csrf token in the header string",
      by unfold csrfTokenFromHeader; simp [h]⟩
  · exact ⟨"missing csrf token in the query string",
      by unfold csrfTokenFromQuery; simp [h]⟩
  · exact ⟨"missing csrf token in the form string",
      by unfold csrfTokenFromForm; simp [h]⟩

/-- C10: for every configured lookup source (header, query parameter or form
field), a client token that is present but equal to the empty string is
indistinguishable from an absent one: the creators report failure exactly when
the looked-up value is `""`, so an unsafe-method request supplying an
empty-string token receives the 400 BadRequest outcome and never the 403
comparison outcome — even when the reference token is empty as well. -/
theorem csrf_empty_client_token_treated_as_absent (config : CSRFConfig)
    (d : List (Fin 16)) (c : YeeCtx)
    (hm : isSafeCSRFMethod c.Method = false) (hst : c.Status = none)
    (hnc : c.NextCalled = false)
    (hempty : csrfClientLookup (csrfResolveConfig config) c = "") :
    (∃ e, csrfExtract (csrfResolveConfig config) c = Except.error e) ∧
    (CSRFWithConfig config d c).1.Status = some 400 ∧
    (CSRFWithConfig config d c).1.Status ≠ some 403 ∧
    (CSRFWithConfig config d c).2 ≠ none ∧
    (CSRFWithConfig config d c).1.NextCalled = false := by
  obtain ⟨e, hex⟩ := csrfExtract_error_of_empty _ c hempty
  have hred := csrfServe_extract_error config d c e hm hex
  obtain ⟨h1, h2, h3⟩ := serverError_proj c 400 e
  rw [hred]
  refine ⟨⟨e, hex⟩, by rw [h1, hst]; rfl, ?_, ?_, by rw [h2, hnc]⟩
  · rw [h1, hst]
    decide
  · rw [h3]
    simp

/-- Witness for C10: a POST whose configured header location holds the empty
string while the request cookie also carries an empty reference token gets
400, not 403. -/
theorem csrf_empty_client_token_treated_as_absent_witness :
    (CSRFWithConfig CSRFDefaultConfig []
      { emptyCtx with
        Method := "POST"
        RespHeaders := [(HeaderXCSRFToken, "")]
        ReqCookies := [("_csrf", "")] }).1.Status = some 400 ∧
    (CSRFWithConfig CSRFDefaultConfig []
      { emptyCtx with
        Method := "POST"
        RespHeaders := [(HeaderXCSRFToken, "")]
        ReqCookies := [("_csrf", "")] }).1.Status ≠ some 403 ∧
    (CSRFWithConfig CSRFDefaultConfig []
      { emptyCtx with
        Method := "POST"
        RespHeaders := [(HeaderXCSRFToken, "")]
        ReqCookies := [("_csrf", "")] }).1.NextCalled = false := by
  obtain ⟨-, h2, h3, -, h5⟩ := csrf_empty_client_token_treated_as_absent
    CSRFDefaultConfig []
    { emptyCtx with
      Method := "POST"
      RespHeaders := [(HeaderXCSRFToken, "")]
      ReqCookies := [("_csrf", "")] } (by decide) rfl rfl (by decide)
  exact ⟨h2, h3, h5⟩

theorem hexChar_mem_alphabet : ∀ n : Fin 16, hexChar n ∈ csrfHexAlphabet := by
  decide

theorem hexChar_ne_dash : ∀ n : Fin 16, hexChar n ≠ '-' := by
  decide

theorem filter_map_hexChar (l : List (Fin 16)) :
    (l.map hexChar).filter (fun ch => ch ≠ '-') = l.map hexChar := by
  apply List.filter_eq_self.mpr
  intro a ha
  obtain ⟨n, -, rfl⟩ := List.mem_map.mp ha
  simpa using hexChar_ne_dash n

theorem take_drop_regroup {α : Type} (d : List α) :
    d.take 8 ++ ((d.drop 8).take 4 ++ ((d.drop 12).take 4 ++
      ((d.drop 16).take 4 ++ d.drop 20))) = d := by
  have e4 : (d.drop 16).take 4 ++ d.drop 20 = d.drop 16 := by
    have h : (d.drop 16).drop 4 = d.drop 20 := by
      rw [List.drop_drop]
    rw [← h, List.take_append_drop]
  have e3 : (d.drop 12).take 4 ++ d.drop 16 = d.drop 12 := by
    have h : (d.drop 12).drop 4 = d.drop 16 := by
      rw [List.drop_drop]
    rw [← h, List.take_append_drop]
  have e2 : (d.drop 8).take 4 ++ d.drop 12 = d.drop 8 := by
    have h : (d.drop 8).drop 4 = d.drop 12 := by
      rw [List.drop_drop]
    rw [← h, List.take_append_drop]
  rw [e4, e3, e2, List.take_append_drop]

theorem csrfFreshToken_eq_map (d : List (Fin 16)) :
    csrfFreshToken d = d.map hexChar := by
  have hdash : (['-'] : List Char).filter (fun ch => ch ≠ '-') = [] := rfl
  unfold csrfFreshToken uuidStringChars
  simp only [List.append_assoc, List.filter_append, hdash, filter_map_hexChar,
    List.nil_append, List.append_nil]
  simp only [← List.map_append]
  rw [take_drop_regroup]

theorem csrfFreshToken_length (d : List (Fin 16)) :
    (csrfFreshToken d).length = d.length := by
  rw [csrfFreshToken_eq_map]
  exact List.length_map d hexChar

theorem string_mk_length (l : List Char) : (String.mk l).length = l.length :=
  rfl

/-- C6 counterexample: configure `TokenLength := 8`; the claim predicts a
fresh token of 8 bytes (16 hex characters), but a GET with no prior cookie
still receives a 32-character cookie value — token generation ignores
`TokenLength` entirely (csrf.go line 87 always dash-strips a UUID). -/
theorem csrf_token_length_config_ignored_cex :
    (csrfResolveConfig { CSRFDefaultConfig with TokenLength := 8 }).TokenLength
      = 8 ∧
    ((CSRFWithConfig { CSRFDefaultConfig with TokenLength := 8 }
        (List.replicate 32 (0 : Fin 16)) emptyCtx).1.RespCookies.map
      (fun k => k.Value.length)) = [32] ∧
    (32 : Nat) ≠ 2 * 8 := by
  decide

/-- C6 corrected: `TokenLength` defaults to 16 as claimed, but generation never
consults it: for every configuration and every UUID draw, the fresh token is
the 32-hex-character dash-stripped UUID rendering; in particular a GET with no
prior cookie yields a cookie whose value has exactly 32 hex characters (the
claim's default-config example), for every configured `TokenLength`. -/
theorem csrf_fresh_token_always_32_hex (config : CSRFConfig)
    (d : List (Fin 16)) (c : YeeCtx) (hd : d.length = 32)
    (hm : isSafeCSRFMethod c.Method = true)
    (hck : c.Cookie (csrfResolveConfig config).CookieName = none) :
    (CSRFWithConfig config d c).1.RespCookies.map (fun k => k.Value) =
      c.RespCookies.map (fun k => k.Value) ++ [String.mk (csrfFreshToken d)] ∧
    (String.mk (csrfFreshToken d)).length = 32 ∧
    (∀ ch ∈ csrfFreshToken d, ch ∈ csrfHexAlphabet) ∧
    (csrfResolveConfig CSRFDefaultConfig).TokenLength = 16 := by
  have htok : csrfReferenceToken (csrfResolveConfig config) d c =
      String.mk (csrfFreshToken d) := by
    unfold csrfReferenceToken
    rw [hck]
  refine ⟨?_, ?_, ?_, by decide⟩
  · rw [csrfServe_safe config d c hm]
    obtain ⟨-, -, h3, -⟩ := csrfAllow_proj (csrfResolveConfig config)
      (csrfReferenceToken (csrfResolveConfig config) d c) c
    rw [h3, htok]
    simp [csrfCookie]
  · rw [string_mk_length, csrfFreshToken_length, hd]
  · rw [csrfFreshToken_eq_map]
    intro ch hch
    obtain ⟨n, -, rfl⟩ := List.mem_map.mp hch
    exact hexChar_mem_alphabet n

/-- Witness for the corrected C6: the default config, a GET with no prior
cookie, and the all-zero UUID draw give a single `_csrf` cookie whose value
has length 32. -/
theorem csrf_fresh_token_always_32_hex_witness :
    (CSRFWithConfig CSRFDefaultConfig (List.replicate 32 (0 : Fin 16))
      emptyCtx).1.RespCookies.map (fun k => k.Value) =
      [String.mk (csrfFreshToken (List.replicate 32 (0 : Fin 16)))] ∧
    (String.mk (csrfFreshToken (List.replicate 32 (0 : Fin 16)))).length
      = 32 := by
  obtain ⟨h1, h2, -, -⟩ := csrf_fresh_token_always_32_hex CSRFDefaultConfig
    (List.replicate 32 (0 : Fin 16)) emptyCtx (by decide) (by decide)
    (by decide)
  exact ⟨by simpa using h1, h2⟩

end Yee
